import Mathlib

/-!
Shallow embedding of the menu-manager repository.

The repository has two request handlers:
  - `app/routes/app.export-menu[.json].js` (the export endpoint), and
  - `app/routes/app._index.jsx` (page with the duplicate and import actions).

Both define the identical helper `prepareMenuItemsForCreate`, a recursive
tree transform on menu items.  JavaScript objects for menu items are
modelled by `RawItem`: the five fields the transform reads are explicit
(`Option` encodes field presence), and any further fields of the object
are kept in the `extra` association list, which the transform never reads.
-/

namespace MenuManager

/-- A JavaScript menu-item object.  `title`, `url`, `type` are the required
string fields; `resourceId` is `none` when the field is absent (in JS:
`undefined`); `items` is `none` when absent and `some l` when the field is
present holding the array `l`; `extra` holds all remaining fields of the
object (name-value pairs), which `prepareMenuItemsForCreate` never reads. -/
inductive RawItem : Type where
  | mk (title url type : String) (resourceId : Option String)
       (items : Option (List RawItem)) (extra : List (String × String)) : RawItem

def RawItem.title : RawItem → String
  | .mk t _ _ _ _ _ => t

def RawItem.url : RawItem → String
  | .mk _ u _ _ _ _ => u

def RawItem.type : RawItem → String
  | .mk _ _ ty _ _ _ => ty

def RawItem.resourceId : RawItem → Option String
  | .mk _ _ _ r _ _ => r

def RawItem.items : RawItem → Option (List RawItem)
  | .mk _ _ _ _ its _ => its

def RawItem.extra : RawItem → List (String × String)
  | .mk _ _ _ _ _ e => e

/-- JS truthiness of a string-or-absent value: `undefined` and the empty
string are falsy, every other string is truthy. -/
def strTruthy : Option String → Bool
  | Option.none => false
  | Option.some s => !(s == "")

/-- The JS guard `item.items && item.items.length > 0`: the field is
present and the array is non-empty. -/
def itemsNonempty : Option (List RawItem) → Bool
  | Option.none => false
  | Option.some l => decide (0 < l.length)

mutual

/-- `prepareMenuItemsForCreate(items)` from both source files (identical in
the two): `if (!items || items.length === 0) return []`, then
`items.map(item => ...)` building a fresh object with exactly
`title, url, type`, plus `resourceId` when truthy and `items` (recursively
prepared) when present and non-empty.  `items.map` is modelled by the
structural helper `prepMap`. -/
def prepareMenuItemsForCreate : Option (List RawItem) → List RawItem
  | Option.none => []
  | Option.some l => if l.length = 0 then [] else prepMap l

/-- `items.map(item => ...)` of the source, as structural recursion. -/
def prepMap : List RawItem → List RawItem
  | [] => []
  | i :: r => prepOne i :: prepMap r

/-- The body of the `map` callback: the fresh `newItem` object. -/
def prepOne : RawItem → RawItem
  | .mk t u ty rid its _ =>
    RawItem.mk t u ty
      (if strTruthy rid then rid else Option.none)
      (if itemsNonempty its then Option.some (prepareMenuItemsForCreate its) else Option.none)
      []

end

mutual

/-- Holds when an item and, recursively, all of its descendants carry no
fields beyond the five of the creation contract, i.e. the `extra`
association list is empty at every depth. -/
def noExtraDeep : RawItem → Bool
  | .mk _ _ _ _ its e => e.isEmpty && noExtraDeepOpt its

/-- Lift of `noExtraDeep` to a possibly absent child array. -/
def noExtraDeepOpt : Option (List RawItem) → Bool
  | Option.none => true
  | Option.some l => noExtraDeepList l

/-- Lift of `noExtraDeep` to a list of items. -/
def noExtraDeepList : List RawItem → Bool
  | [] => true
  | i :: r => noExtraDeep i && noExtraDeepList r

end

/-! ## Handle generation

Both action flows build the new handle with the identical expression
(page source, lines 168 and 201):
`newMenuTitle.toLowerCase().replace(/\s+/g, "-").replace(/[^\w-]+/g, "")`
followed by a hyphen and `Math.random().toString(36).substring(2, 8)`.
The random suffix is external randomness and enters the model as an input;
the deterministic slug part is transcribed below.  The character classes
are modelled over their ASCII meaning (Lean `Char.isWhitespace`,
`Char.isAlpha`, `Char.isDigit` are the ASCII tests). -/

/-- Model of `title.toLowerCase()` (ASCII case mapping). -/
def jsToLowerCase (s : String) : String :=
  String.mk (s.data.map Char.toLower)

/-- Model of `String.prototype.trim()`: remove leading and trailing
whitespace (ASCII whitespace test). -/
def jsTrim (s : String) : String :=
  String.mk (((s.data.dropWhile Char.isWhitespace).reverse.dropWhile
    Char.isWhitespace).reverse)

/-- Worker for `.replace(/\s+/g, "-")`: the Boolean flag records whether
the previous character belonged to a whitespace run, so each maximal run
of whitespace emits exactly one hyphen. -/
def collapseWsAux : Bool → List Char → List Char
  | _, [] => []
  | inRun, c :: rest =>
    if c.isWhitespace then
      if inRun then collapseWsAux true rest
      else '-' :: collapseWsAux true rest
    else c :: collapseWsAux false rest

/-- Model of `.replace(/\s+/g, "-")`. -/
def collapseWsToHyphen (s : String) : String :=
  String.mk (collapseWsAux false s.data)

/-- Character class `\w` of the JS regex: ASCII letters, digits, underscore. -/
def isWordChar (c : Char) : Bool :=
  c.isAlpha || c.isDigit || c == '_'

/-- Model of `.replace(/[^\w-]+/g, "")`: delete every character that is
neither a word character nor a hyphen. -/
def stripNonWordHyphen (s : String) : String :=
  String.mk (s.data.filter (fun c => isWordChar c || c == '-'))

/-- Deterministic slug part of the generated handle. -/
def slugify (title : String) : String :=
  stripNonWordHyphen (collapseWsToHyphen (jsToLowerCase title))

/-- Full generated handle: slug, hyphen, random suffix. -/
def makeHandle (title suffix : String) : String :=
  slugify title ++ "-" ++ suffix

/-! ## The action and loader request handlers

The handlers talk to external collaborators: the authenticated Admin API
client (`admin.graphql`), `JSON.parse`, and `Math.random`.  Their behavior
during one invocation is packaged as explicit inputs (`Env`, parse
outcomes, suffix), and each handler returns, next to its response value,
the list of GraphQL operations it issued, in order.  The `items` argument
of the create mutation is not recorded in that trace; no claim concerns
it. -/

/-- A structured error record `{field?, message}` as returned by the
handlers and by the remote API. -/
structure ErrRecord where
  field : Option (List String)
  message : String
deriving DecidableEq

/-- A menu object returned by the create mutation. -/
structure CreatedMenu where
  id : String
  handle : String
  title : String
deriving DecidableEq

/-- One GraphQL operation issued to the Admin API client. -/
inductive GqlCall where
  | getMenuDetails (menuId : String)
  | menuCreate (title handle : String)
deriving DecidableEq

/-- Behavior of the external collaborators during one action invocation:
the decoded details-query response (`errors` field and `data?.menu`, the
latter carrying `menu.items`), the decoded create-mutation response
(top-level `errors`, `data?.menuCreate?.userErrors` with absent modelled
as `[]`, and `data?.menuCreate?.menu`), and the random handle suffix. -/
structure Env where
  detailsErrors : Option (List ErrRecord)
  detailsMenuItems : Option (Option (List RawItem))
  createTopErrors : Option (List ErrRecord)
  createUserErrors : List ErrRecord
  createMenu : Option CreatedMenu
  randSuffix : String

/-- The shape of the JSON value an action returns via `Response.json`:
only the keys the source ever sets. -/
structure ActionResponse where
  actionName : Option String
  success : Bool
  errors : Option (List ErrRecord)
  createdMenu : Option CreatedMenu
  message : Option String
deriving DecidableEq

/-- A parsed JSON value, the result of a successful `JSON.parse`. -/
inductive JsVal : Type where
  | null
  | bool (b : Bool)
  | num (n : Int)
  | str (s : String)
  | arr (elems : List JsVal)
  | obj (fields : List (String × JsVal))

/-- Result of `formData.get("menuFile")`: absent (`null`), a plain string
value, or an uploaded file.  A file is modelled by its byte size together
with the outcome of `JSON.parse` applied to its text content, the JSON
grammar being external library behavior (`Except.error` is the thrown
SyntaxError message). -/
inductive FileField : Type where
  | absent
  | strVal (s : String)
  | file (size : Nat) (parsed : Except String JsVal)

/-- Message of the TypeError thrown by `null.items` (V8 wording). -/
def nullItemsMsg : String :=
  "Cannot read properties of null (reading \x27items\x27)"

/-- JS property access `importedData.items` on a parsed JSON value: on
`null` it throws a TypeError (modelled as `Except.error` carrying the V8
message); on an object it yields the named field, or `undefined`
(`Option.none`) when missing; on any other value it yields `undefined`. -/
def jsGetItems : JsVal → Except String (Option JsVal)
  | JsVal.null => Except.error nullItemsMsg
  | JsVal.obj fs => Except.ok ((fs.find? (fun p => p.fst == "items")).map Prod.snd)
  | _ => Except.ok Option.none

/-- The JS guard
`!uploadedFile || typeof uploadedFile === 'string' || uploadedFile.size === 0`
of the import flow. -/
def fileInvalid : FileField → Bool
  | FileField.absent => true
  | FileField.strVal _ => true
  | FileField.file size _ => size == 0

/-- Model of `Array.isArray` applied to the possibly-`undefined` value of
the `items` property. -/
def isArrayOpt : Option JsVal → Bool
  | Option.some (JsVal.arr _) => true
  | _ => false

/-- Validation-failure response of the duplicate flow (page source,
line 158). -/
def duplicateFormErrorResp : ActionResponse :=
  { actionName := Option.some "duplicateMenu", success := false,
    errors := Option.some [ErrRecord.mk (Option.some ["form"]) "Original menu and new title are required."],
    createdMenu := Option.none, message := Option.none }

/-- Validation-failure response of the import flow (page source,
line 186). -/
def importFormErrorResp : ActionResponse :=
  { actionName := Option.some "importMenu", success := false,
    errors := Option.some [ErrRecord.mk (Option.some ["form"]) "New menu title and a valid JSON file are required."],
    createdMenu := Option.none, message := Option.none }

/-- Error response of the import flow for a file whose content fails
`JSON.parse` (page source, line 194). -/
def importInvalidJsonResp : ActionResponse :=
  { actionName := Option.some "importMenu", success := false,
    errors := Option.some [ErrRecord.mk (Option.some ["file"]) "Invalid JSON file."],
    createdMenu := Option.none, message := Option.none }

/-- Error response of the import flow for a parsed document whose `items`
value is not an array (page source, line 198). -/
def importNoItemsArrayResp : ActionResponse :=
  { actionName := Option.some "importMenu", success := false,
    errors := Option.some [ErrRecord.mk (Option.some ["file"]) "Invalid JSON: \x27items\x27 array not found."],
    createdMenu := Option.none, message := Option.none }

/-- Response built by the catch-all of the import flow when the thrown
error carries the given message (page source, line 213). -/
def importCaughtResp (m : String) : ActionResponse :=
  { actionName := Option.some "importMenu", success := false,
    errors := Option.some [ErrRecord.mk Option.none m],
    createdMenu := Option.none, message := Option.none }

/-- Model of the `duplicateMenu` branch of the `action` handler (page
source, lines 146 to 181).  `originalMenuId` and `titleField` are the raw
form values (`Option.none` for an absent field); the title is trimmed
before any use, and JS falsiness of the two guards is the `Option.none`
or empty-string case of the match and if below. -/
def duplicateAction (originalMenuId : Option String) (titleField : Option String)
    (env : Env) : ActionResponse × List GqlCall :=
  match originalMenuId, titleField.map jsTrim with
  | Option.some mid, Option.some t =>
    if mid == "" || t == "" then (duplicateFormErrorResp, [])
    else
      if env.detailsErrors.isSome || env.detailsMenuItems.isNone then
        ({ actionName := Option.some "duplicateMenu", success := false,
           errors := Option.some (env.detailsErrors.getD
             [ErrRecord.mk Option.none "Failed to fetch original menu details."]),
           createdMenu := Option.none, message := Option.none },
         [GqlCall.getMenuDetails mid])
      else
        let newMenuHandle := makeHandle t env.randSuffix
        let calls := [GqlCall.getMenuDetails mid, GqlCall.menuCreate t newMenuHandle]
        if env.createUserErrors.length != 0 then
          ({ actionName := Option.some "duplicateMenu", success := false,
             errors := Option.some env.createUserErrors,
             createdMenu := Option.none, message := Option.none }, calls)
        else if env.createTopErrors.isSome || env.createMenu.isNone then
          ({ actionName := Option.some "duplicateMenu", success := false,
             errors := Option.some (env.createTopErrors.getD
               [ErrRecord.mk Option.none "Failed to create new menu."]),
             createdMenu := Option.none, message := Option.none }, calls)
        else
          ({ actionName := Option.some "duplicateMenu", success := true,
             errors := Option.none, createdMenu := env.createMenu,
             message := Option.some ("Menu \"" ++ t ++ "\" duplicated successfully! New handle: "
               ++ newMenuHandle) }, calls)
  | _, _ => (duplicateFormErrorResp, [])

/-- Model of the `importMenu` branch of the `action` handler (page source,
lines 182 to 214).  The thrown TypeError of the `null`-document property
access is the `Except.error` case of `jsGetItems`, caught by the outer
catch of the source and reported as a single untagged message record. -/
def importAction (titleField : Option String) (menuFile : FileField)
    (env : Env) : ActionResponse × List GqlCall :=
  match titleField.map jsTrim, menuFile with
  | Option.some t, FileField.file size parsed =>
    if t == "" || size == 0 then (importFormErrorResp, [])
    else
      match parsed with
      | Except.error _ => (importInvalidJsonResp, [])
      | Except.ok doc =>
        match jsGetItems doc with
        | Except.error m => (importCaughtResp m, [])
        | Except.ok itemsToImport =>
          if !(isArrayOpt itemsToImport) then (importNoItemsArrayResp, [])
          else
            let newMenuHandle := makeHandle t env.randSuffix
            let calls := [GqlCall.menuCreate t newMenuHandle]
            if env.createUserErrors.length != 0 then
              ({ actionName := Option.some "importMenu", success := false,
                 errors := Option.some env.createUserErrors,
                 createdMenu := Option.none, message := Option.none }, calls)
            else if env.createTopErrors.isSome || env.createMenu.isNone then
              ({ actionName := Option.some "importMenu", success := false,
                 errors := Option.some (env.createTopErrors.getD
                   [ErrRecord.mk Option.none "Failed to create menu from import."]),
                 createdMenu := Option.none, message := Option.none }, calls)
            else
              ({ actionName := Option.some "importMenu", success := true,
                 errors := Option.none, createdMenu := env.createMenu,
                 message := Option.some ("Menu \"" ++ t ++ "\" imported successfully!") }, calls)
  | _, _ => (importFormErrorResp, [])

/-! ## The export endpoint loader -/

/-- Outcome of `authenticate.admin(request)` in the export loader:
success with a usable admin client, a missing admin object or graphql
method, a thrown `Response` (re-thrown by the loader), or a thrown error. -/
inductive AuthOutcome : Type where
  | ok
  | badAdmin
  | threwResponse
  | threwError (msg : String)

/-- Details of a menu returned by the export query. -/
structure MenuDetails where
  handle : String
  title : String
  items : Option (List RawItem)

/-- Behavior of the external collaborators during one export-loader
invocation: the decoded response of the details query. -/
structure ExportEnv where
  gqlErrors : Option (List ErrRecord)
  gqlMenu : Option MenuDetails

/-- Body of the JSON response of the export loader: either an error body
`{error, details?}` (the heterogeneous `details` payload is recorded only
as present or absent) or the export payload. -/
inductive ExportBody : Type where
  | errBody (error : String) (hasDetails : Bool)
  | payload (originalHandle originalTitle : String) (items : List RawItem)

/-- Result of the export loader: a JSON response with a status, or the
re-thrown auth `Response`. -/
inductive LoaderResult : Type where
  | resp (status : Nat) (body : ExportBody)
  | rethrown

/-- Model of the `loader` of `app/routes/app.export-menu[.json].js`
(lines 50 to 102).  `menuId` is `url.searchParams.get("menuId")`
(`Option.none` when the URL lacks the parameter); the JS guard `!menuId`
also catches the present-but-empty string. -/
def exportLoader (auth : AuthOutcome) (menuId : Option String)
    (env : ExportEnv) : LoaderResult × List GqlCall :=
  match auth with
  | AuthOutcome.badAdmin =>
    (LoaderResult.resp 500 (ExportBody.errBody "Admin context error" true), [])
  | AuthOutcome.threwResponse => (LoaderResult.rethrown, [])
  | AuthOutcome.threwError _ =>
    (LoaderResult.resp 500 (ExportBody.errBody "Auth error" true), [])
  | AuthOutcome.ok =>
    match menuId with
    | Option.none =>
      (LoaderResult.resp 400 (ExportBody.errBody "Missing menuId parameter" false), [])
    | Option.some mid =>
      if mid == "" then
        (LoaderResult.resp 400 (ExportBody.errBody "Missing menuId parameter" false), [])
      else
        match env.gqlErrors, env.gqlMenu with
        | Option.none, Option.some md =>
          (LoaderResult.resp 200
            (ExportBody.payload md.handle md.title (prepareMenuItemsForCreate md.items)),
           [GqlCall.getMenuDetails mid])
        | _, _ =>
          (LoaderResult.resp 500 (ExportBody.errBody "Failed to fetch menu details" true),
           [GqlCall.getMenuDetails mid])

/-! ## Concrete sample values (the end-to-end scenarios of the spec) -/

/-- Child item of end-to-end scenario 2. -/
def sampleChild : RawItem :=
  RawItem.mk "Sale" "/sale" "HTTP" Option.none Option.none []

/-- Parent item of end-to-end scenario 2, carrying an extra `id` field as
the Admin API returns it. -/
def sampleParent : RawItem :=
  RawItem.mk "Shop" "/collections/all" "COLLECTION" (Option.some "gid://123")
    (Option.some [sampleChild]) [("id", "gid://shopify/MenuItem/1")]

/-- The sanitized form of `sampleParent`. -/
def sampleParentOut : RawItem :=
  RawItem.mk "Shop" "/collections/all" "COLLECTION" (Option.some "gid://123")
    (Option.some [RawItem.mk "Sale" "/sale" "HTTP" Option.none Option.none []]) []

/-- An environment in which every external call succeeds. -/
def happyEnv : Env :=
  { detailsErrors := Option.none, detailsMenuItems := Option.some (Option.some [sampleParent]),
    createTopErrors := Option.none, createUserErrors := [],
    createMenu := Option.some (CreatedMenu.mk "gid://new" "my-menu-abc123" "My Menu"),
    randSuffix := "abc123" }

/-! ## Helper lemmas about the normalizer -/

theorem prepMap_eq_map (l : List RawItem) : prepMap l = l.map prepOne := by
  induction l with
  | nil => rfl
  | cons i r ih => simp [prepMap, ih]

theorem length_prepMap (l : List RawItem) : (prepMap l).length = l.length := by
  simp [prepMap_eq_map]

theorem prep_some (l : List RawItem) :
    prepareMenuItemsForCreate (Option.some l) = l.map prepOne := by
  unfold prepareMenuItemsForCreate
  split
  · next h => simp [List.length_eq_zero] at h; simp [h]
  · exact prepMap_eq_map l

theorem prep_none : prepareMenuItemsForCreate Option.none = [] := rfl

theorem prep_some_eq_prepMap (l : List RawItem) :
    prepareMenuItemsForCreate (Option.some l) = prepMap l := by
  unfold prepareMenuItemsForCreate
  split
  · next h =>
    rw [List.length_eq_zero] at h
    subst h
    rfl
  · rfl

theorem noExtraDeepList_iff (l : List RawItem) :
    noExtraDeepList l = true ↔ ∀ m ∈ l, noExtraDeep m = true := by
  induction l with
  | nil => simp [noExtraDeepList]
  | cons i r ih => simp [noExtraDeepList, ih]

theorem noExtra_master : ∀ n : Nat,
    (∀ o : Option (List RawItem), sizeOf o ≤ n →
       noExtraDeepList (prepareMenuItemsForCreate o) = true) ∧
    (∀ l : List RawItem, sizeOf l ≤ n → noExtraDeepList (prepMap l) = true) ∧
    (∀ i : RawItem, sizeOf i ≤ n → noExtraDeep (prepOne i) = true) := by
  intro n
  induction n with
  | zero =>
    refine ⟨?_, ?_, ?_⟩
    · intro o h; cases o <;> simp at h
    · intro l h; cases l <;> simp at h
    · intro i h
      cases i with
      | mk t u ty rid its e => simp [RawItem.mk.sizeOf_spec] at h
  | succ n ih =>
    obtain ⟨ihO, ihL, ihI⟩ := ih
    refine ⟨?_, ?_, ?_⟩
    · intro o h
      cases o with
      | none => simp [prep_none, noExtraDeepList]
      | some l =>
        have hl : sizeOf l ≤ n := by simp at h; omega
        unfold prepareMenuItemsForCreate
        split
        · simp [noExtraDeepList]
        · exact ihL l hl
    · intro l h
      cases l with
      | nil => simp [prepMap, noExtraDeepList]
      | cons i r =>
        have hi : sizeOf i ≤ n := by simp at h; omega
        have hr : sizeOf r ≤ n := by simp at h; omega
        simp [prepMap, noExtraDeepList, ihI i hi, ihL r hr]
    · intro i h
      cases i with
      | mk t u ty rid its e =>
        have hits : sizeOf its ≤ n := by simp [RawItem.mk.sizeOf_spec] at h; omega
        by_cases hne : itemsNonempty its
        · simp [prepOne, noExtraDeep, hne, noExtraDeepOpt, ihO its hits]
        · simp [prepOne, noExtraDeep, hne, noExtraDeepOpt]

theorem noExtra_all (o : Option (List RawItem)) :
    ∀ m ∈ prepareMenuItemsForCreate o, noExtraDeep m = true :=
  (noExtraDeepList_iff _).mp ((noExtra_master (sizeOf o)).1 o (le_refl _))

theorem idem_master : ∀ n : Nat,
    (∀ o : Option (List RawItem), sizeOf o ≤ n →
       prepMap (prepareMenuItemsForCreate o) = prepareMenuItemsForCreate o) ∧
    (∀ l : List RawItem, sizeOf l ≤ n → prepMap (prepMap l) = prepMap l) ∧
    (∀ i : RawItem, sizeOf i ≤ n → prepOne (prepOne i) = prepOne i) := by
  intro n
  induction n with
  | zero =>
    refine ⟨?_, ?_, ?_⟩
    · intro o h; cases o <;> simp at h
    · intro l h; cases l <;> simp at h
    · intro i h
      cases i with
      | mk t u ty rid its e => simp [RawItem.mk.sizeOf_spec] at h
  | succ n ih =>
    obtain ⟨ihO, ihL, ihI⟩ := ih
    refine ⟨?_, ?_, ?_⟩
    · intro o h
      cases o with
      | none => simp [prep_none, prepMap]
      | some l =>
        have hl : sizeOf l ≤ n := by simp at h; omega
        rw [prep_some_eq_prepMap]
        exact ihL l hl
    · intro l h
      cases l with
      | nil => simp [prepMap]
      | cons i r =>
        have hi : sizeOf i ≤ n := by simp at h; omega
        have hr : sizeOf r ≤ n := by simp at h; omega
        simp [prepMap, ihI i hi, ihL r hr]
    · intro i h
      cases i with
      | mk t u ty rid its e =>
        simp only [prepOne, RawItem.mk.injEq, true_and]
        constructor
        · cases hrc : strTruthy rid with
          | true => simp [hrc]
          | false => simp [hrc, strTruthy]
        · by_cases hne : itemsNonempty its = true
          · cases its with
            | none => simp [itemsNonempty] at hne
            | some l =>
              have hlen : 0 < l.length := by simpa [itemsNonempty] using hne
              have hl : sizeOf l ≤ n := by simp [RawItem.mk.sizeOf_spec] at h; omega
              have h2 : itemsNonempty (Option.some (prepMap l)) = true := by
                simp [itemsNonempty, length_prepMap, hlen]
              simp [hne, h2, prep_some_eq_prepMap, ihL l hl]
          · simp only [Bool.not_eq_true] at hne
            rw [hne]
            simp [itemsNonempty]

theorem prep_idem (o : Option (List RawItem)) :
    prepareMenuItemsForCreate (Option.some (prepareMenuItemsForCreate o)) =
      prepareMenuItemsForCreate o := by
  rw [prep_some_eq_prepMap]
  exact (idem_master (sizeOf o)).1 o (le_refl _)

end MenuManager

namespace MenuManager

/-- C1: for every input sequence, `prepareMenuItemsForCreate` returns a
sequence of the same length with corresponding elements in order (it is
the elementwise map of `prepOne`), and empty or absent input yields the
empty sequence. -/
theorem claim1_length_order_empty (l : List RawItem) :
    (prepareMenuItemsForCreate (Option.some l)).length = l.length ∧
    prepareMenuItemsForCreate (Option.some l) = l.map prepOne ∧
    prepareMenuItemsForCreate Option.none = [] ∧
    prepareMenuItemsForCreate (Option.some []) = [] :=
  ⟨by simp [prep_some], prep_some l, rfl, rfl⟩

/-- C2: every output item, at every nesting depth, carries only the five
contract fields (its `extra` association list is empty all the way down);
`title`, `url` and `type` are forwarded verbatim; and the output is the
elementwise image of the input in the same order, so nothing is
deduplicated or reordered. -/
theorem claim2_only_contract_fields_verbatim (o : Option (List RawItem)) :
    (∀ m ∈ prepareMenuItemsForCreate o, noExtraDeep m = true) ∧
    (∀ i : RawItem, (prepOne i).title = i.title ∧ (prepOne i).url = i.url ∧
      (prepOne i).type = i.type) ∧
    (∀ l : List RawItem, prepareMenuItemsForCreate (Option.some l) = l.map prepOne) :=
  ⟨noExtra_all o,
   fun i => by cases i with | mk t u ty rid its e => exact ⟨rfl, rfl, rfl⟩,
   prep_some⟩

/-- Closed witness for C2 at end-to-end scenario 2 of the spec. -/
theorem claim2_witness : noExtraDeep sampleParentOut = true :=
  (claim2_only_contract_fields_verbatim (Option.some [sampleParent])).1
    sampleParentOut (by rw [prep_some]; exact List.mem_singleton.mpr rfl)

/-- C3: an input item whose `resourceId` is absent or falsy (the empty
string) yields an output item with no `resourceId` field; a truthy
`resourceId` is forwarded verbatim. -/
theorem claim3_resourceId_truthiness (i : RawItem) :
    (prepOne i).resourceId =
      (if strTruthy i.resourceId then i.resourceId else Option.none) ∧
    (strTruthy i.resourceId = false ↔
      i.resourceId = Option.none ∨ i.resourceId = Option.some "") := by
  cases i with
  | mk t u ty rid its e =>
    refine ⟨rfl, ?_⟩
    cases rid with
    | none => simp [RawItem.resourceId, strTruthy]
    | some s => simp [RawItem.resourceId, strTruthy]

/-- C4: an input item whose child sequence is absent or empty yields an
output item with no `items` field; a non-empty child sequence yields an
`items` field equal to the recursive `prepareMenuItemsForCreate` of the
children. -/
theorem claim4_items_field (i : RawItem) :
    (prepOne i).items =
      (if itemsNonempty i.items then
         Option.some (prepareMenuItemsForCreate i.items)
       else Option.none) ∧
    (itemsNonempty i.items = false ↔
      i.items = Option.none ∨ i.items = Option.some []) := by
  cases i with
  | mk t u ty rid its e =>
    refine ⟨rfl, ?_⟩
    cases its with
    | none => simp [RawItem.items, itemsNonempty]
    | some l => simp [RawItem.items, itemsNonempty, List.length_eq_zero]

/-- C5: the normalizer is idempotent: re-normalizing its own output is the
identity, both in composed form and on any sequence that is some
normalizer output. -/
theorem claim5_idempotent :
    (∀ o : Option (List RawItem),
       prepareMenuItemsForCreate (Option.some (prepareMenuItemsForCreate o)) =
         prepareMenuItemsForCreate o) ∧
    (∀ x : List RawItem, (∃ o, x = prepareMenuItemsForCreate o) →
       prepareMenuItemsForCreate (Option.some x) = x) :=
  ⟨prep_idem, by rintro x ⟨o, rfl⟩; exact prep_idem o⟩

/-- Closed witness for C5 on the sanitized scenario-2 output. -/
theorem claim5_witness :
    prepareMenuItemsForCreate (Option.some [sampleParentOut]) = [sampleParentOut] :=
  claim5_idempotent.2 [sampleParentOut]
    ⟨Option.some [sampleParent], by rfl⟩

end MenuManager

namespace MenuManager

/-- Helper: any create mutation the duplicate flow issues carries the
trimmed submitted title and the handle built from it. -/
theorem dup_create_mem (mid tf : Option String) (env : Env) (t hdl : String) :
    GqlCall.menuCreate t hdl ∈ (duplicateAction mid tf env).2 →
      tf.map jsTrim = Option.some t ∧ hdl = makeHandle t env.randSuffix := by
  intro hmem
  cases mid with
  | none => simp [duplicateAction] at hmem
  | some m =>
    cases tf with
    | none => simp [duplicateAction] at hmem
    | some s =>
      by_cases h1 : (m == "" || jsTrim s == "") = true
      · simp [duplicateAction, h1] at hmem
      · by_cases h2 : (env.detailsErrors.isSome || env.detailsMenuItems.isNone) = true
        · simp [duplicateAction, h1, h2] at hmem
        · simp [duplicateAction, h1, h2, apply_ite Prod.snd] at hmem
          obtain ⟨ht, hh⟩ := hmem
          subst ht
          simp [hh]

/-- Helper: any create mutation the import flow issues carries the trimmed
submitted title and the handle built from it. -/
theorem imp_create_mem (tf : Option String) (file : FileField) (env : Env) (t hdl : String) :
    GqlCall.menuCreate t hdl ∈ (importAction tf file env).2 →
      tf.map jsTrim = Option.some t ∧ hdl = makeHandle t env.randSuffix := by
  intro hmem
  cases tf with
  | none => simp [importAction] at hmem
  | some s =>
    cases file with
    | absent => simp [importAction] at hmem
    | strVal v => simp [importAction] at hmem
    | file sz p =>
      by_cases h1 : (jsTrim s == "" || sz == 0) = true
      · simp [importAction, h1] at hmem
      · cases p with
        | error e => simp [importAction, h1] at hmem
        | ok doc =>
          cases hj : jsGetItems doc with
          | error m => simp [importAction, h1, hj] at hmem
          | ok its =>
            by_cases ha : isArrayOpt its = true
            · simp [importAction, h1, hj, ha, apply_ite Prod.snd] at hmem
              obtain ⟨ht, hh⟩ := hmem
              subst ht
              simp [hh]
            · simp [importAction, h1, hj, ha] at hmem

/-- C6 (amended): with a valid title and file, an upload whose content
fails `JSON.parse`, or parses to a document on which the `items` property
reads back a non-array value, yields the single `file`-tagged error record
and no create mutation; a document that is JSON `null` makes the property
access throw, which the catch reports as a single untagged record, again
with no create mutation. -/
theorem claim6_amended (t : String) (sz : Nat) (p : Except String JsVal) (env : Env) :
    (jsTrim t == "") = false → (sz == 0) = false →
    (∀ e, p = Except.error e →
       importAction (Option.some t) (FileField.file sz p) env = (importInvalidJsonResp, [])) ∧
    (∀ doc its, p = Except.ok doc → jsGetItems doc = Except.ok its → isArrayOpt its = false →
       importAction (Option.some t) (FileField.file sz p) env = (importNoItemsArrayResp, [])) ∧
    (p = Except.ok JsVal.null →
       importAction (Option.some t) (FileField.file sz p) env = (importCaughtResp nullItemsMsg, [])) := by
  intro h1 h2
  refine ⟨?_, ?_, ?_⟩
  · rintro e rfl
    simp [importAction, h1, h2]
  · rintro doc its rfl hj ha
    simp [importAction, h1, h2, hj, ha]
  · rintro rfl
    simp [importAction, h1, h2, jsGetItems]

/-- Closed witness for C6 (amended) at a concrete failed parse. -/
theorem claim6_witness :
    importAction (Option.some "My Import") (FileField.file 5 (Except.error "Unexpected token")) happyEnv =
      (importInvalidJsonResp, []) :=
  (claim6_amended "My Import" 5 (Except.error "Unexpected token") happyEnv (by decide)
    (by decide)).1 "Unexpected token" rfl

/-- C6 counterexample: a file whose content is the valid JSON text `null`
parses to a document without an `items` array, yet the action reports a
single untagged error record, not one tagged `file` (the mutation is still
not attempted). -/
theorem claim6_counterexample :
    (importAction (Option.some "My Import") (FileField.file 5 (Except.ok JsVal.null)) happyEnv).2 = [] ∧
    (importAction (Option.some "My Import") (FileField.file 5 (Except.ok JsVal.null)) happyEnv).1.errors =
      Option.some [ErrRecord.mk Option.none nullItemsMsg] ∧
    ¬ ∃ m : String,
        (importAction (Option.some "My Import") (FileField.file 5 (Except.ok JsVal.null)) happyEnv).1.errors =
          Option.some [ErrRecord.mk (Option.some ["file"]) m] := by
  refine ⟨rfl, rfl, ?_⟩
  rintro ⟨m, hm⟩
  have h0 : (importAction (Option.some "My Import") (FileField.file 5 (Except.ok JsVal.null)) happyEnv).1.errors =
      Option.some [ErrRecord.mk Option.none nullItemsMsg] := rfl
  rw [h0] at hm
  simp at hm

/-- C7 (amended): a missing required form field (no menu selected or empty
trimmed title in the duplicate flow; empty trimmed title or missing,
string-valued or zero-size file in the import flow) yields the
validation-error response whose single record is tagged with the generic
field `form`, and no GraphQL operation is attempted. -/
theorem claim7_amended (mid tf : Option String) (file : FileField) (env : Env) :
    ((strTruthy mid = false ∨ strTruthy (tf.map jsTrim) = false) →
       duplicateAction mid tf env = (duplicateFormErrorResp, [])) ∧
    ((strTruthy (tf.map jsTrim) = false ∨ fileInvalid file = true) →
       importAction tf file env = (importFormErrorResp, [])) ∧
    duplicateFormErrorResp.errors =
      Option.some [ErrRecord.mk (Option.some ["form"]) "Original menu and new title are required."] ∧
    importFormErrorResp.errors =
      Option.some [ErrRecord.mk (Option.some ["form"]) "New menu title and a valid JSON file are required."] := by
  refine ⟨?_, ?_, rfl, rfl⟩
  · intro h
    cases mid with
    | none => rfl
    | some m =>
      cases tf with
      | none => rfl
      | some s =>
        have hc : (m == "" || jsTrim s == "") = true := by
          rcases h with h | h
          · simp [strTruthy] at h
            simp [h]
          · simp [strTruthy] at h
            simp [h]
        simp [duplicateAction, hc]
  · intro h
    cases tf with
    | none => cases file <;> rfl
    | some s =>
      cases file with
      | absent => rfl
      | strVal v => rfl
      | file sz p =>
        have hc : (jsTrim s == "" || sz == 0) = true := by
          rcases h with h | h
          · simp [strTruthy] at h
            simp [h]
          · simp [fileInvalid] at h
            simp [h]
        simp [importAction, hc]

/-- Closed witness for C7 (amended): a missing menu selection and a
missing import file, each rejected with the form-tagged record and an
empty call trace. -/
theorem claim7_witness :
    duplicateAction Option.none (Option.some "T") happyEnv = (duplicateFormErrorResp, []) ∧
    importAction (Option.some "T") FileField.absent happyEnv = (importFormErrorResp, []) :=
  ⟨(claim7_amended Option.none (Option.some "T") FileField.absent happyEnv).1 (Or.inl rfl),
   (claim7_amended Option.none (Option.some "T") FileField.absent happyEnv).2.1 (Or.inr rfl)⟩

/-- C7 counterexample: two different offending form fields (no menu
selected versus no title submitted) produce identical responses, whose
single error record is tagged `form`, a name that differs from both form
field names, so the tag does not identify the offending field. -/
theorem claim7_counterexample :
    duplicateAction Option.none (Option.some "New Title") happyEnv =
      duplicateAction (Option.some "gid://shopify/Menu/1") Option.none happyEnv ∧
    (duplicateAction Option.none (Option.some "New Title") happyEnv).1.errors =
      Option.some [ErrRecord.mk (Option.some ["form"]) "Original menu and new title are required."] ∧
    ("form" : String) ≠ "originalMenuId" ∧ ("form" : String) ≠ "newMenuTitle" :=
  ⟨rfl, rfl, by decide, by decide⟩

/-- C8: every create mutation either flow issues submits the handle
`slugify(title) ++ "-" ++ suffix`: the lowercased title with whitespace
runs collapsed to single hyphens and the remaining non-word, non-hyphen
characters stripped, then the random suffix, via the same `slugify` in
both flows. -/
theorem claim8_handle_slug (mid tf : Option String) (file : FileField) (env : Env)
    (t hdl : String) :
    (GqlCall.menuCreate t hdl ∈ (duplicateAction mid tf env).2 →
       hdl = slugify t ++ "-" ++ env.randSuffix) ∧
    (GqlCall.menuCreate t hdl ∈ (importAction tf file env).2 →
       hdl = slugify t ++ "-" ++ env.randSuffix) :=
  ⟨fun h => (dup_create_mem mid tf env t hdl h).2,
   fun h => (imp_create_mem tf file env t hdl h).2⟩

/-- Closed witness for C8: the duplicate flow on title `My Menu` submits
the handle `my-menu-abc123` under suffix `abc123`. -/
theorem claim8_witness :
    ("my-menu-abc123" : String) = slugify "My Menu" ++ "-" ++ happyEnv.randSuffix :=
  (claim8_handle_slug (Option.some "gid://1") (Option.some "My Menu") FileField.absent happyEnv
      "My Menu" "my-menu-abc123").1 (by decide)

/-- C9: with an authenticated admin client, a request whose URL lacks the
`menuId` query parameter is answered with status 400 and body
`{error: "Missing menuId parameter"}` (no `details` key), and no GraphQL
query is issued. -/
theorem claim9_missing_menuId (env : ExportEnv) :
    exportLoader AuthOutcome.ok Option.none env =
      (LoaderResult.resp 400 (ExportBody.errBody "Missing menuId parameter" false), []) := rfl

/-- C10: both flows trim the submitted title before any use: a
whitespace-only title is rejected exactly as a missing title, and any
create mutation issued carries the trimmed title and the handle generated
from the trimmed title. -/
theorem claim10_trim_title (mid : Option String) (raw : String) (file : FileField) (env : Env) :
    (jsTrim raw = "" →
       duplicateAction mid (Option.some raw) env = duplicateAction mid Option.none env ∧
       importAction (Option.some raw) file env = importAction Option.none file env) ∧
    (∀ t hdl, GqlCall.menuCreate t hdl ∈ (duplicateAction mid (Option.some raw) env).2 →
       t = jsTrim raw ∧ hdl = makeHandle (jsTrim raw) env.randSuffix) ∧
    (∀ t hdl, GqlCall.menuCreate t hdl ∈ (importAction (Option.some raw) file env).2 →
       t = jsTrim raw ∧ hdl = makeHandle (jsTrim raw) env.randSuffix) := by
  refine ⟨?_, ?_, ?_⟩
  · intro hr
    constructor
    · cases mid with
      | none => rfl
      | some m => simp [duplicateAction, hr]
    · cases file with
      | absent => rfl
      | strVal v => rfl
      | file sz p => simp [importAction, hr]
  · intro t hdl hmem
    obtain ⟨h1, h2⟩ := dup_create_mem mid (Option.some raw) env t hdl hmem
    simp only [Option.map_some', Option.some.injEq] at h1
    subst h1
    exact ⟨rfl, h2⟩
  · intro t hdl hmem
    obtain ⟨h1, h2⟩ := imp_create_mem (Option.some raw) file env t hdl hmem
    simp only [Option.map_some', Option.some.injEq] at h1
    subst h1
    exact ⟨rfl, h2⟩

/-- Closed witness for C10 on a whitespace-only submitted title. -/
theorem claim10_witness :
    duplicateAction (Option.some "gid://1") (Option.some "   ") happyEnv =
      duplicateAction (Option.some "gid://1") Option.none happyEnv ∧
    importAction (Option.some "   ") FileField.absent happyEnv =
      importAction Option.none FileField.absent happyEnv :=
  (claim10_trim_title (Option.some "gid://1") "   " FileField.absent happyEnv).1 (by decide)

end MenuManager
